import Mathlib

/-!
Shallow embedding of the pynetbird client library
(src/netbird/pynetbird/src/pynetbird), covering the endpoint formatter and
sensitive-data masking (utils.py), the exception taxonomy and status-code
classification (exceptions.py), the retry loop and error-response processing
(base.py), configuration merging (config.py), and the Group / Policy /
PolicyRule pydantic models (models/group.py, models/policy.py,
models/base.py).  Python values that can hold heterogeneous JSON data are
modelled by the `JValue` type; Python dicts are association lists keyed by
strings, with lookup returning the first binding.
-/

namespace PyNetBird

/-- A Python/JSON value as it appears in API request and response payloads. -/
inductive JValue : Type where
  | null : JValue
  | bool (b : Bool) : JValue
  | num (n : Int) : JValue
  | str (s : String) : JValue
  | list (items : List JValue) : JValue
  | dict (entries : List (String × JValue)) : JValue

/-- A Python dict with string keys, as used for API response bodies. -/
abbrev JDict := List (String × JValue)

/-- Python `str.strip()` on the character list: drop whitespace from both
ends (the claims only exercise ASCII whitespace). -/
def stripChars (l : List Char) : List Char :=
  ((l.dropWhile Char.isWhitespace).reverse.dropWhile Char.isWhitespace).reverse

/-- Python `str.strip()`. -/
def pyStrip (s : String) : String :=
  String.mk (stripChars s.data)

/-- Python `str.startswith(p)`. -/
def pyStartsWith (s p : String) : Bool :=
  List.isPrefixOf p.data s.data

/-- Python slicing `s[n:]`. -/
def pyDrop (s : String) (n : Nat) : String :=
  String.mk (s.data.drop n)

/-- Python `str.lower()` (character-wise; the claims only exercise ASCII). -/
def pyToLower (s : String) : String :=
  String.mk (s.data.map Char.toLower)

/-- Lookup of a key in a dict (`key in d` followed by `d[key]`). -/
def jlookup (d : JDict) (key : String) : Option JValue :=
  match d with
  | [] => none
  | (k, v) :: rest => if k = key then some v else jlookup rest key

/-- Python truthiness of a JSON value (`if response[field]:`). -/
def jtruthy : JValue → Bool
  | .null => false
  | .bool b => b
  | .num n => n != 0
  | .str s => s != ""
  | .list items => !items.isEmpty
  | .dict entries => !entries.isEmpty

/-- Python `str()` of a value.  Faithful for strings, numbers, booleans and
None; for containers the repr is approximate (no theorem below depends on
the container cases). -/
def pyStr : JValue → String
  | .null => "None"
  | .bool b => if b then "True" else "False"
  | .num n => toString n
  | .str s => s
  | .list _ => "[...]"
  | .dict _ => "{...}"

/-! ## exceptions.py -/

/-- The exception classes of exceptions.py: every class in the taxonomy is a
subclass of `NetBirdException`; `base` stands for a plain
`NetBirdException` instance. -/
inductive ErrKind : Type where
  | base : ErrKind
  | authentication : ErrKind
  | authorization : ErrKind
  | notFound : ErrKind
  | validation : ErrKind
  | conflict : ErrKind
  | rateLimit : ErrKind
  | server : ErrKind
  | network : ErrKind
  | timeout : ErrKind
  | configuration : ErrKind
deriving Repr, DecidableEq

/-- A constructed NetBird exception object.  `statusCode` and `retryAfter`
are `Option JValue` because Python attributes are untyped: the code in
`map_status_code_to_exception` can (and, for 429, does) store a non-integer
there.  `response` is always a dict: `NetBirdException.__init__` stores
`response or \x7b\x7d`. -/
structure NBError : Type where
  kind : ErrKind
  message : String
  statusCode : Option JValue
  response : JDict
  retryAfter : Option JValue

/-- The body of `NetBirdException.__init__(message, status_code, response)`
shared by every subclass except `RateLimitError`: stores the message and
status code and replaces a missing response with the empty dict. -/
def mkNetBirdException (kind : ErrKind) (message : String)
    (statusCode : Option JValue) (response : Option JDict) : NBError :=
  { kind := kind
    message := message
    statusCode := statusCode
    response := response.getD []
    retryAfter := none }

/-- The body of
`RateLimitError.__init__(message, retry_after, status_code, response)`:
stores `retry_after` and delegates the rest to `NetBirdException.__init__`. -/
def mkRateLimitError (message : String) (retryAfter : Option JValue)
    (statusCode : Option JValue) (response : Option JDict) : NBError :=
  { mkNetBirdException .rateLimit message statusCode response with
    retryAfter := retryAfter }

/-- `map_status_code_to_exception(status_code, message, response)` from
exceptions.py.  For 429 the source calls
`RateLimitError(message, status_code, response)` with positional arguments,
so `status_code` lands in the `retry_after` parameter and `response` lands
in the `status_code` parameter (the `response` parameter is left at its
default `None`); the embedding reproduces that argument shift. -/
def mapStatusCodeToException (statusCode : Int) (message : String)
    (response : Option JDict) : NBError :=
  if statusCode = 400 then mkNetBirdException .validation message (some (.num statusCode)) response
  else if statusCode = 401 then mkNetBirdException .authentication message (some (.num statusCode)) response
  else if statusCode = 403 then mkNetBirdException .authorization message (some (.num statusCode)) response
  else if statusCode = 404 then mkNetBirdException .notFound message (some (.num statusCode)) response
  else if statusCode = 409 then mkNetBirdException .conflict message (some (.num statusCode)) response
  else if statusCode = 422 then mkNetBirdException .validation message (some (.num statusCode)) response
  else if statusCode = 429 then
    mkRateLimitError message (some (.num statusCode)) (response.map .dict) none
  else if 500 ≤ statusCode ∧ statusCode < 600 then
    mkNetBirdException .server message (some (.num statusCode)) response
  else
    mkNetBirdException .base message (some (.num statusCode)) response

/-- `format_api_error(response)` from exceptions.py: extract a readable
message from an error body. -/
def formatApiError (response : JDict) : String :=
  if response.isEmpty then "Unknown API error"
  else
    match (jlookup response "message").filter jtruthy with
    | some v => pyStr v
    | none =>
      match (jlookup response "error").filter jtruthy with
      | some v => pyStr v
      | none =>
        match (jlookup response "detail").filter jtruthy with
        | some v => pyStr v
        | none =>
          match (jlookup response "description").filter jtruthy with
          | some v => pyStr v
          | none =>
            match jlookup response "errors" with
            | some (.list errors) =>
              match errors with
              | (.dict first) :: _ =>
                pyStr ((jlookup first "message").getD (.str (pyStr (.dict first))))
              | first :: _ => pyStr first
              | [] => "API error: " ++ pyStr (.dict response)
            | _ => "API error: " ++ pyStr (.dict response)

/-! ## base.py: response processing and retry loop -/

/-- The error branch of `BaseClient._process_response` (base.py lines
290-307): `errorData` is the parsed JSON body when the response carried a
JSON content type and parsed, otherwise the empty dict; the message falls
back to `HTTP <status>: <reason>` only when `format_api_error` returns a
falsy (empty) string, mirroring the Python `or`. -/
def processErrorResponse (statusCode : Int) (errorData : JDict)
    (reasonPhrase : String) : NBError :=
  let msg := formatApiError errorData
  let errorMessage :=
    if msg = "" then "HTTP " ++ toString statusCode ++ ": " ++ reasonPhrase
    else msg
  mapStatusCodeToException statusCode errorMessage (some errorData)

/-- The transient classes caught by `except (NetworkError, TimeoutError)` in
the retry loop; neither class has subclasses in the repository. -/
def isTransientErr (e : NBError) : Bool :=
  e.kind == .network || e.kind == .timeout

/-- One execution of `BaseClient._make_request_with_retry` starting at loop
index `attempt` (base.py lines 309-331; the async variant at lines 333-354
is identical up to `await`).  `f n` is the outcome of the underlying
request on loop iteration `n`.  Returns the number of attempts performed,
the list of back-off delays slept, and the final outcome: a transient error
is retried after sleeping `retryDelay * backoff ^ attempt` while
`attempt < maxRetries`, any other `NetBirdException` is re-raised at once,
and after the loop the last transient error is raised. -/
def retryFromAux (maxRetries : Nat) (retryDelay backoff : ℚ)
    (f : Nat → Except NBError α) (attempt : Nat) :
    Nat × List ℚ × Except NBError α :=
  match f attempt with
  | .ok v => (1, [], .ok v)
  | .error e =>
    if isTransientErr e then
      if h : attempt < maxRetries then
        let delay := retryDelay * backoff ^ attempt
        let rest := retryFromAux maxRetries retryDelay backoff f (attempt + 1)
        (rest.1 + 1, delay :: rest.2.1, rest.2.2)
      else (1, [], .error e)
    else (1, [], .error e)
termination_by maxRetries + 1 - attempt

/-- `BaseClient._make_request_with_retry`: the loop
`for attempt in range(max_retries + 1)` entered at attempt 0. -/
def makeRequestWithRetry (maxRetries : Nat) (retryDelay backoff : ℚ)
    (f : Nat → Except NBError α) : Nat × List ℚ × Except NBError α :=
  retryFromAux maxRetries retryDelay backoff f 0

/-! ## utils.py: endpoint formatting -/

/-- Collapse every run of consecutive slashes to a single slash, the effect
of `re.sub(r"/+", "/", s)` in `format_endpoint`. -/
def collapseDupSlashes : List Char → List Char
  | [] => []
  | [c] => [c]
  | a :: b :: rest =>
    if a = '/' && b = '/' then collapseDupSlashes (b :: rest)
    else a :: collapseDupSlashes (b :: rest)

/-- `format_endpoint(endpoint)` from utils.py with the default empty
`base_url` (every caller inside the client passes no base URL, so the
`urljoin` branch is dead for the claims): strip surrounding whitespace,
drop one leading slash, prefix `api/` unless the string already starts
with it, prepend a slash, and collapse duplicate slashes. -/
def formatEndpoint (endpoint : String) : String :=
  let stripped := pyStrip endpoint
  let noLead := if pyStartsWith stripped "/" then pyDrop stripped 1 else stripped
  let prefixed := if pyStartsWith noLead "api/" then noLead else "api/" ++ noLead
  let formatted := "/" ++ prefixed
  String.mk (collapseDupSlashes formatted.data)

/-! ## utils.py: sensitive-data masking -/

/-- The default sensitive field names of `mask_sensitive_data`. -/
def defaultSensitiveFields : List String :=
  ["api_key", "token", "password", "secret", "key",
   "authorization", "auth", "credentials", "private_key",
   "access_token", "refresh_token", "session_id"]

/-- Python `s * n` for a string. -/
def strRepeat (s : String) (n : Nat) : String :=
  String.join (List.replicate n s)

/-- Python `s[-k:]`: the last `k` characters, or the whole string when
`k = 0` (since `-0 == 0`). -/
def pySuffix (s : String) (k : Nat) : String :=
  if k = 0 then s else String.mk (s.data.drop (s.length - k))

/-- `_mask_value(value)` nested in `mask_sensitive_data`: the value is
always the result of `str(...)` at the call site, so the `isinstance`
guard is satisfied and `len(str(value)) = len(value)`. -/
def maskValue (maskChar : String) (showChars : Nat) (value : String) : String :=
  if value.length ≤ showChars then strRepeat maskChar value.length
  else strRepeat maskChar (value.length - showChars) ++ pySuffix value showChars

mutual

/-- `_mask_recursive(obj)` nested in `mask_sensitive_data`: dict values
under a sensitive key (case-insensitive) are replaced by
`_mask_value(str(value))`, other dict values and list items recurse, and
scalars pass through. -/
def maskRecursive (fieldsLower : List String) (maskChar : String)
    (showChars : Nat) : JValue → JValue
  | .dict entries => .dict (maskEntries fieldsLower maskChar showChars entries)
  | .list items => .list (maskItems fieldsLower maskChar showChars items)
  | v => v

/-- The dict branch of `_mask_recursive`, one key/value pair at a time. -/
def maskEntries (fieldsLower : List String) (maskChar : String)
    (showChars : Nat) : List (String × JValue) → List (String × JValue)
  | [] => []
  | (k, v) :: rest =>
    (if pyToLower k ∈ fieldsLower then (k, .str (maskValue maskChar showChars (pyStr v)))
     else (k, maskRecursive fieldsLower maskChar showChars v))
    :: maskEntries fieldsLower maskChar showChars rest

/-- The list/tuple branch of `_mask_recursive`. -/
def maskItems (fieldsLower : List String) (maskChar : String)
    (showChars : Nat) : List JValue → List JValue
  | [] => []
  | v :: rest =>
    maskRecursive fieldsLower maskChar showChars v
    :: maskItems fieldsLower maskChar showChars rest

end

/-- `mask_sensitive_data(data, fields, mask_char, show_chars)` from utils.py:
defaults the field list, lowercases it, and recursively masks. -/
def maskSensitiveData (data : JValue) (fields : Option (List String))
    (maskChar : String) (showChars : Nat) : JValue :=
  maskRecursive ((fields.getD defaultSensitiveFields).map pyToLower)
    maskChar showChars data

/-! ## config.py -/

/-- The `NetBirdConfig` dataclass fields.  Python floats are modelled as
rationals (every float literal appearing in the defaults and claims is
exactly representable). -/
structure NetBirdConfig : Type where
  apiKey : Option String
  apiUrl : String
  timeout : Int
  maxRetries : Int
  retryDelay : ℚ
  retryBackoffFactor : ℚ
  verifySsl : Bool
  userAgent : String
  connectionPoolSize : Int
  connectionPoolMaxSize : Int
  enableLogging : Bool
  logLevel : String
  rateLimitRequests : Option Int
  rateLimitPeriod : Option Int
  extraHeaders : List (String × String)
deriving Repr, DecidableEq

/-- The dataclass field defaults, `NetBirdConfig()`. -/
def defaultConfig : NetBirdConfig :=
  { apiKey := none
    apiUrl := "https://api.netbird.io"
    timeout := 30
    maxRetries := 3
    retryDelay := 1
    retryBackoffFactor := 2
    verifySsl := true
    userAgent := "PyNetBird/0.1.0"
    connectionPoolSize := 10
    connectionPoolMaxSize := 20
    enableLogging := false
    logLevel := "INFO"
    rateLimitRequests := none
    rateLimitPeriod := none
    extraHeaders := [] }

/-- One field of `_merge_configs`: the override value is taken only when it
differs from the dataclass default
(`elif value != defaults.get(key): base_dict[key] = value`). -/
def mergeField [DecidableEq α] (dflt base override : α) : α :=
  if override ≠ dflt then override else base

/-- Python `dict.update`: existing keys of `base` are overwritten in place,
new keys of `override` are appended in order. -/
def dictUpdate (base override : List (String × String)) :
    List (String × String) :=
  base.map (fun kv =>
    match List.lookup kv.1 override with
    | some v => (kv.1, v)
    | none => kv)
  ++ override.filter (fun kv => (List.lookup kv.1 base).isNone)

/-- `_merge_configs(base, override)` from config.py: field-by-field merge
where `extra_headers` is dict-merged and every other field is overridden
only when the override differs from the dataclass default. -/
def mergeConfigs (base override : NetBirdConfig) : NetBirdConfig :=
  { apiKey := mergeField defaultConfig.apiKey base.apiKey override.apiKey
    apiUrl := mergeField defaultConfig.apiUrl base.apiUrl override.apiUrl
    timeout := mergeField defaultConfig.timeout base.timeout override.timeout
    maxRetries := mergeField defaultConfig.maxRetries base.maxRetries override.maxRetries
    retryDelay := mergeField defaultConfig.retryDelay base.retryDelay override.retryDelay
    retryBackoffFactor :=
      mergeField defaultConfig.retryBackoffFactor base.retryBackoffFactor override.retryBackoffFactor
    verifySsl := mergeField defaultConfig.verifySsl base.verifySsl override.verifySsl
    userAgent := mergeField defaultConfig.userAgent base.userAgent override.userAgent
    connectionPoolSize :=
      mergeField defaultConfig.connectionPoolSize base.connectionPoolSize override.connectionPoolSize
    connectionPoolMaxSize :=
      mergeField defaultConfig.connectionPoolMaxSize base.connectionPoolMaxSize override.connectionPoolMaxSize
    enableLogging := mergeField defaultConfig.enableLogging base.enableLogging override.enableLogging
    logLevel := mergeField defaultConfig.logLevel base.logLevel override.logLevel
    rateLimitRequests :=
      mergeField defaultConfig.rateLimitRequests base.rateLimitRequests override.rateLimitRequests
    rateLimitPeriod :=
      mergeField defaultConfig.rateLimitPeriod base.rateLimitPeriod override.rateLimitPeriod
    extraHeaders := dictUpdate base.extraHeaders override.extraHeaders }

/-- The `NETBIRD_*` environment variables read by `NetBirdConfig.from_env`.
A missing variable is `none`.  Numeric variables are modelled already
parsed (the `int()`/`float()` conversions belong to the Python runtime);
the boolean variables keep their raw string because `from_env` compares the
lowercased string against a truthy set itself. -/
structure EnvVars : Type where
  apiKey : Option String
  apiUrl : Option String
  timeout : Option Int
  maxRetries : Option Int
  retryDelay : Option ℚ
  retryBackoffFactor : Option ℚ
  verifySsl : Option String
  userAgent : Option String
  poolSize : Option Int
  poolMaxSize : Option Int
  enableLogging : Option String
  logLevel : Option String
  rateLimitRequests : Option Int
  rateLimitPeriod : Option Int
deriving Repr, DecidableEq

/-- The environment with no `NETBIRD_*` variable set. -/
def emptyEnv : EnvVars :=
  { apiKey := none, apiUrl := none, timeout := none, maxRetries := none
    retryDelay := none, retryBackoffFactor := none, verifySsl := none
    userAgent := none, poolSize := none, poolMaxSize := none
    enableLogging := none, logLevel := none, rateLimitRequests := none
    rateLimitPeriod := none }

/-- The truthy strings accepted by `from_env` for boolean variables. -/
def envTruthyStrings : List String := ["true", "1", "yes", "on"]

/-- `NetBirdConfig.from_env` from config.py: each field takes the
environment value when the variable is set, else the dataclass default;
`extra_headers` is never read from the environment. -/
def configFromEnv (e : EnvVars) : NetBirdConfig :=
  { apiKey := e.apiKey
    apiUrl := e.apiUrl.getD defaultConfig.apiUrl
    timeout := e.timeout.getD defaultConfig.timeout
    maxRetries := e.maxRetries.getD defaultConfig.maxRetries
    retryDelay := e.retryDelay.getD defaultConfig.retryDelay
    retryBackoffFactor := e.retryBackoffFactor.getD defaultConfig.retryBackoffFactor
    verifySsl := pyToLower (e.verifySsl.getD "true") ∈ envTruthyStrings
    userAgent := e.userAgent.getD defaultConfig.userAgent
    connectionPoolSize := e.poolSize.getD defaultConfig.connectionPoolSize
    connectionPoolMaxSize := e.poolMaxSize.getD defaultConfig.connectionPoolMaxSize
    enableLogging := pyToLower (e.enableLogging.getD "false") ∈ envTruthyStrings
    logLevel := e.logLevel.getD defaultConfig.logLevel
    rateLimitRequests := e.rateLimitRequests
    rateLimitPeriod := e.rateLimitPeriod
    extraHeaders := [] }

/-- Direct keyword overrides handed to `load_config(**overrides)`: a field
is `none` when the keyword is absent from the override dict. -/
structure Overrides : Type where
  apiKey : Option (Option String)
  apiUrl : Option String
  timeout : Option Int
  maxRetries : Option Int
  retryDelay : Option ℚ
  retryBackoffFactor : Option ℚ
  verifySsl : Option Bool
  userAgent : Option String
  connectionPoolSize : Option Int
  connectionPoolMaxSize : Option Int
  enableLogging : Option Bool
  logLevel : Option String
  rateLimitRequests : Option (Option Int)
  rateLimitPeriod : Option (Option Int)
  extraHeaders : Option (List (String × String))
deriving Repr, DecidableEq

/-- The empty override dict (no keyword set). -/
def noOverrides : Overrides :=
  { apiKey := none, apiUrl := none, timeout := none, maxRetries := none
    retryDelay := none, retryBackoffFactor := none, verifySsl := none
    userAgent := none, connectionPoolSize := none, connectionPoolMaxSize := none
    enableLogging := none, logLevel := none, rateLimitRequests := none
    rateLimitPeriod := none, extraHeaders := none }

/-- `NetBirdConfig.from_dict(overrides)` from config.py: unknown keys are
filtered out (already absent from `Overrides`) and missing fields take the
dataclass defaults. -/
def configFromDict (o : Overrides) : NetBirdConfig :=
  { apiKey := o.apiKey.getD defaultConfig.apiKey
    apiUrl := o.apiUrl.getD defaultConfig.apiUrl
    timeout := o.timeout.getD defaultConfig.timeout
    maxRetries := o.maxRetries.getD defaultConfig.maxRetries
    retryDelay := o.retryDelay.getD defaultConfig.retryDelay
    retryBackoffFactor := o.retryBackoffFactor.getD defaultConfig.retryBackoffFactor
    verifySsl := o.verifySsl.getD defaultConfig.verifySsl
    userAgent := o.userAgent.getD defaultConfig.userAgent
    connectionPoolSize := o.connectionPoolSize.getD defaultConfig.connectionPoolSize
    connectionPoolMaxSize := o.connectionPoolMaxSize.getD defaultConfig.connectionPoolMaxSize
    enableLogging := o.enableLogging.getD defaultConfig.enableLogging
    logLevel := o.logLevel.getD defaultConfig.logLevel
    rateLimitRequests := o.rateLimitRequests.getD defaultConfig.rateLimitRequests
    rateLimitPeriod := o.rateLimitPeriod.getD defaultConfig.rateLimitPeriod
    extraHeaders := o.extraHeaders.getD defaultConfig.extraHeaders }

/-- The merge pipeline of `load_config(config_file, env_file, **overrides)`
from config.py: defaults, then the parsed file config (when a file was
given), then the environment config, then the direct overrides (when the
override dict is non-empty), each applied through `_merge_configs`.  The
final `config.validate()` call only checks the merged values (raising on
violations) and never modifies them, so the resolved field values are
exactly those produced here. -/
def loadConfigMerged (fileConfig : Option NetBirdConfig) (env : EnvVars)
    (overrides : Option Overrides) : NetBirdConfig :=
  let c := defaultConfig
  let c := match fileConfig with
    | some fc => mergeConfigs c fc
    | none => c
  let c := mergeConfigs c (configFromEnv env)
  match overrides with
  | some o => mergeConfigs c (configFromDict o)
  | none => c

/-! ## models: base.py, group.py, policy.py -/

/-- `PeerRef` from models/base.py: required `id`, optional `name` and `ip`. -/
structure PeerRef : Type where
  id : String
  name : Option String
  ip : Option String
deriving Repr, DecidableEq

/-- `GroupType` from models/group.py. -/
inductive GroupType : Type where
  | standard : GroupType
  | all : GroupType
  | system : GroupType
deriving Repr, DecidableEq

/-- The `Group` model fields from models/group.py that the claims touch
(the `TimestampMixin` fields are absent from every claim input and are
parsed by the external dateutil library, so they are not modelled). -/
structure Group : Type where
  id : String
  name : String
  description : Option String
  peersCount : Int
  peers : Option (List PeerRef)
  resourcesCount : Int
  groupType : Option GroupType
  issued : Option String
deriving Repr, DecidableEq

/-- `Group.validate_name` from models/group.py: emptiness is checked on the
raw and on the stripped value, the length bound on the raw (unstripped)
value, and the stripped value is stored. -/
def groupValidateName (v : String) : Except String String :=
  if v = "" || pyStrip v = "" then .error ("Group name cannot be empty")
  else if v.length > 100 then .error ("Group name too long (max 100 characters)")
  else .ok (pyStrip v)

/-- `Policy.validate_name` from models/policy.py: identical shape to the
group validator. -/
def policyValidateName (v : String) : Except String String :=
  if v = "" || pyStrip v = "" then .error ("Policy name cannot be empty")
  else if v.length > 100 then .error ("Policy name too long (max 100 characters)")
  else .ok (pyStrip v)

/-- The `name` field of `PolicyRule` from models/policy.py: the class
declares `name: str` with no `validate_name` field validator (its only
validators are for `ports`, `protocol` and `action`), so any string passes
through unchanged. -/
def policyRuleValidateName (v : String) : Except String String :=
  .ok v

/-- pydantic validation of one element of the `peers` field against
`PeerRef`: only a dict (or an existing model instance) is accepted;
pydantic v2 does not coerce a bare string into a model, and `PeerRef`
declares no `mode="before"` validator that would do so.  Extra keys are
retained by `extra="allow"` and ignored here. -/
def validatePeerRef (v : JValue) : Except String PeerRef :=
  match v with
  | .dict d => do
    let id ← match jlookup d "id" with
      | some (.str s) => Except.ok s
      | some _ => Except.error ("id: Input should be a valid string")
      | none => Except.error ("id: Field required")
    let name ← match jlookup d "name" with
      | none => Except.ok none
      | some .null => Except.ok none
      | some (.str s) => Except.ok (some s)
      | some _ => Except.error ("name: Input should be a valid string")
    let ip ← match jlookup d "ip" with
      | none => Except.ok none
      | some .null => Except.ok none
      | some (.str s) => Except.ok (some s)
      | some _ => Except.error ("ip: Input should be a valid string")
    Except.ok { id := id, name := name, ip := ip }
  | _ => .error ("Input should be a valid dictionary or instance of PeerRef")

/-- pydantic validation of the `peers: Optional[List[PeerRef]]` field of
`Group`: absent or null gives `None`, a list validates element-wise. -/
def validateGroupPeers (v : Option JValue) : Except String (Option (List PeerRef)) :=
  match v with
  | none => .ok none
  | some .null => .ok none
  | some (.list items) => do
    let ps ← items.mapM validatePeerRef
    Except.ok (some ps)
  | some _ => .error ("peers: Input should be a valid list")

/-- The `mode="before"` validator `Group.parse_group_type` followed by the
enum check: absent or null gives `None`, a string is matched lowercased
against the known values with unknown strings degrading to `standard`. -/
def parseGroupType (v : Option JValue) : Except String (Option GroupType) :=
  match v with
  | none => .ok none
  | some .null => .ok none
  | some (.str s) =>
    let lower := pyToLower s
    if lower = "standard" then .ok (some .standard)
    else if lower = "all" then .ok (some .all)
    else if lower = "system" then .ok (some .system)
    else .ok (some .standard)
  | some _ => .error ("type: Input should be a valid string")

/-- Validation of an optional string field (absent or null gives `None`). -/
def validateOptStr (fieldName : String) (v : Option JValue) :
    Except String (Option String) :=
  match v with
  | none => .ok none
  | some .null => .ok none
  | some (.str s) => .ok (some s)
  | some _ => .error (fieldName ++ ": Input should be a valid string")

/-- Validation of an integer field with a default for an absent key. -/
def validateIntWithDefault (fieldName : String) (dflt : Int)
    (v : Option JValue) : Except String Int :=
  match v with
  | none => .ok dflt
  | some (.num n) => .ok n
  | some _ => .error (fieldName ++ ": Input should be a valid integer")

/-- `Group.model_validate(data)`: field-by-field validation of the group
payload.  Aliased fields (`peersCount`, `resourcesCount`, `type`) also
accept the Python field name because the model config sets
`populate_by_name=True`.  The `id` check is the `IDMixin` validator (a
non-empty string), the `name` check is `Group.validate_name`.  pydantic
aggregates all field errors while this embedding returns the first; the
difference never affects whether validation succeeds. -/
def validateGroup (d : JDict) : Except String Group := do
  let id ← match jlookup d "id" with
    | some (.str s) =>
      if s = "" then Except.error ("ID must be a non-empty string")
      else Except.ok s
    | some _ => Except.error ("ID must be a non-empty string")
    | none => Except.error ("id: Field required")
  let name ← match jlookup d "name" with
    | some (.str s) => groupValidateName s
    | some _ => Except.error ("name: Input should be a valid string")
    | none => Except.error ("name: Field required")
  let description ← validateOptStr "description" (jlookup d "description")
  let peersCount ← validateIntWithDefault "peersCount" 0
    ((jlookup d "peersCount").orElse (fun _ => jlookup d "peers_count"))
  let peers ← validateGroupPeers (jlookup d "peers")
  let resourcesCount ← validateIntWithDefault "resourcesCount" 0
    ((jlookup d "resourcesCount").orElse (fun _ => jlookup d "resources_count"))
  let groupType ← parseGroupType
    ((jlookup d "type").orElse (fun _ => jlookup d "group_type"))
  let issued ← validateOptStr "issued" (jlookup d "issued")
  Except.ok
    { id := id, name := name, description := description
      peersCount := peersCount, peers := peers
      resourcesCount := resourcesCount, groupType := groupType
      issued := issued }

/-- `Group.peer_ids` from models/group.py (`if not self.peers: return []`,
where both `None` and the empty list are falsy). -/
def peerIds (g : Group) : List String :=
  match g.peers with
  | none => []
  | some ps => ps.map (fun p => p.id)

/-- `Group.has_peer(peer_id)` from models/group.py. -/
def hasPeer (g : Group) (peerId : String) : Bool :=
  (peerIds g).contains peerId

/-- `Group.add_peer(peer)` from models/group.py: replace a `None` peer list
with the empty list, then append and refresh `peers_count` only when no
peer with that id is present. -/
def addPeer (g : Group) (p : PeerRef) : Group :=
  let ps := g.peers.getD []
  let g1 := { g with peers := some ps }
  if hasPeer g1 p.id then g1
  else { g1 with
    peers := some (ps ++ [p])
    peersCount := ((ps ++ [p]).length : Int) }

/-- `Group.remove_peer(peer_id)` from models/group.py: with no peer list
return `False` unchanged; otherwise filter out the id, refresh
`peers_count`, and report whether the list shrank. -/
def removePeer (g : Group) (peerId : String) : Bool × Group :=
  match g.peers with
  | none => (false, g)
  | some ps =>
    let remaining := ps.filter (fun p => p.id != peerId)
    (remaining.length < ps.length,
     { g with peers := some remaining, peersCount := (remaining.length : Int) })

/-! ## Helper lemmas -/

/-- Filtering strictly shrinks a list exactly when some element fails the
predicate. -/
theorem length_filter_lt_iff {α : Type} (p : α → Bool) (l : List α) :
    (l.filter p).length < l.length ↔ ∃ x ∈ l, p x = false := by
  induction l with
  | nil => simp
  | cons a l ih =>
    by_cases hp : p a = true
    · simp only [List.filter_cons, hp, if_true, List.length_cons,
        Nat.add_lt_add_iff_right, ih, List.mem_cons]
      constructor
      · rintro ⟨x, hx, hpx⟩
        exact ⟨x, Or.inr hx, hpx⟩
      · rintro ⟨x, hx | hx, hpx⟩
        · subst hx; rw [hp] at hpx; cases hpx
        · exact ⟨x, hx, hpx⟩
    · have hp' : p a = false := by
        cases h : p a
        · rfl
        · exact absurd h hp
      simp only [List.filter_cons, hp', if_false, List.length_cons]
      constructor
      · intro _
        exact ⟨a, List.mem_cons_self a l, hp'⟩
      · intro _
        exact Nat.lt_succ_of_le (List.length_filter_le p l)

/-- When every attempt fails transiently, the loop entered at `a` with
`a + j = maxRetries` performs `j + 1` attempts, sleeps the back-off delays
for attempts `a, a+1, ...`, and ends with the outcome of the final
attempt. -/
theorem retryFromAux_all_transient {α : Type} (rd bf : ℚ)
    (f : Nat → Except NBError α)
    (h : ∀ n, ∃ e, f n = .error e ∧ isTransientErr e = true) :
    ∀ (j a mr : Nat), a + j = mr →
    retryFromAux mr rd bf f a =
      (j + 1, (List.range j).map (fun i => rd * bf ^ (a + i)), f mr) := by
  intro j
  induction j with
  | zero =>
    intro a mr ha
    obtain ⟨e, he, ht⟩ := h a
    have hmr : mr = a := by omega
    subst hmr
    rw [retryFromAux, he]
    simp [ht, he]
  | succ j ih =>
    intro a mr ha
    obtain ⟨e, he, ht⟩ := h a
    have hlt : a < mr := by omega
    have hrec := ih (a + 1) mr (by omega)
    rw [retryFromAux, he]
    simp only [ht, if_true, hlt, dif_pos, hrec, Prod.mk.injEq]
    refine ⟨trivial, ?_, trivial⟩
    rw [List.range_succ_eq_map, List.map_cons, List.map_map]
    simp only [List.cons.injEq]
    constructor
    · simp
    · apply List.map_congr_left
      intro i _
      simp only [Function.comp]
      have hadd : a + 1 + i = a + Nat.succ i := by omega
      rw [hadd]

/-- When attempts `a, ..., a + k - 1` fail transiently and attempt `a + k`
raises a non-transient NetBird exception while still inside the loop
bound, that exception is re-raised at once: exactly `k + 1` attempts and
`k` back-off sleeps happen. -/
theorem retryFromAux_nontransient {α : Type} (rd bf : ℚ)
    (f : Nat → Except NBError α) (e : NBError)
    (hnt : isTransientErr e = false) :
    ∀ (k a mr : Nat), a + k ≤ mr →
    (∀ i, a ≤ i → i < a + k → ∃ t, f i = .error t ∧ isTransientErr t = true) →
    f (a + k) = .error e →
    retryFromAux mr rd bf f a =
      (k + 1, (List.range k).map (fun i => rd * bf ^ (a + i)), .error e) := by
  intro k
  induction k with
  | zero =>
    intro a mr _ _ hfe
    rw [Nat.add_zero] at hfe
    rw [retryFromAux, hfe]
    simp [hnt]
  | succ k ih =>
    intro a mr hle htr hfe
    obtain ⟨t, hft, htt⟩ := htr a (Nat.le_refl a) (by omega)
    have hlt : a < mr := by omega
    have hrec := ih (a + 1) mr (by omega)
      (fun i hi1 hi2 => htr i (by omega) (by omega))
      (by
        have hadd : a + 1 + k = a + (k + 1) := by omega
        rw [hadd]; exact hfe)
    rw [retryFromAux, hft]
    simp only [htt, if_true, hlt, dif_pos, hrec, Prod.mk.injEq]
    refine ⟨trivial, ?_, trivial⟩
    rw [List.range_succ_eq_map, List.map_cons, List.map_map]
    simp only [List.cons.injEq]
    constructor
    · simp
    · apply List.map_congr_left
      intro i _
      simp only [Function.comp]
      have hadd : a + 1 + i = a + Nat.succ i := by omega
      rw [hadd]

/-- Lookup distributes over list append. -/
theorem lookup_append (x y : List (String × String)) (k : String) :
    List.lookup k (x ++ y)
      = (List.lookup k x).orElse (fun _ => List.lookup k y) := by
  induction x with
  | nil => simp [List.lookup, Option.orElse]
  | cons kv rest ih =>
    obtain ⟨k0, v0⟩ := kv
    by_cases hk : k = k0
    · subst hk
      simp [List.lookup, Option.orElse]
    · have hbeq : (k == k0) = false := beq_false_of_ne hk
      simp [List.lookup, hbeq, ih, Option.orElse]

/-- Lookup in the value-replacement half of `dictUpdate`. -/
theorem lookup_dictUpdate_map (a b : List (String × String)) (k : String) :
    List.lookup k (a.map (fun kv =>
        match List.lookup kv.1 b with
        | some v => (kv.1, v)
        | none => kv))
      = match List.lookup k a with
        | some v => some ((List.lookup k b).getD v)
        | none => none := by
  induction a with
  | nil => simp [List.lookup]
  | cons kv rest ih =>
    obtain ⟨k0, v0⟩ := kv
    by_cases hk : k = k0
    · subst hk
      cases hb : List.lookup k b <;>
        simp [List.lookup, hb]
    · have hbeq : (k == k0) = false := beq_false_of_ne hk
      cases hb : List.lookup k0 b <;>
        simp [List.lookup, hb, hbeq, ih]

/-- Lookup in the new-keys half of `dictUpdate`. -/
theorem lookup_dictUpdate_filter (a b : List (String × String)) (k : String) :
    List.lookup k (b.filter (fun kv => (List.lookup kv.1 a).isNone))
      = if (List.lookup k a).isNone then List.lookup k b else none := by
  induction b with
  | nil => simp [List.lookup]
  | cons kv rest ih =>
    obtain ⟨k0, v0⟩ := kv
    by_cases hk : k = k0
    · subst hk
      cases ha : List.lookup k a <;>
        simp [List.filter_cons, List.lookup, ha, ih]
    · have hbeq : (k == k0) = false := beq_false_of_ne hk
      cases hp : (List.lookup k0 a).isNone <;>
        simp [List.filter_cons, List.lookup, hp, hbeq, ih]

/-- Lookup in a Python `dict.update`: the override value wins, the base
value survives otherwise. -/
theorem lookup_dictUpdate (a b : List (String × String)) (k : String) :
    List.lookup k (dictUpdate a b)
      = (List.lookup k b).orElse (fun _ => List.lookup k a) := by
  rw [dictUpdate, lookup_append, lookup_dictUpdate_map, lookup_dictUpdate_filter]
  cases ha : List.lookup k a <;> cases hb : List.lookup k b <;>
    simp [Option.orElse]

/-- Masking a dict rewrites the value found under a sensitive key to the
masked rendering of its string form. -/
theorem jlookup_maskEntries (fl : List String) (mc : String) (sc : Nat)
    (entries : JDict) (k : String) (v : JValue)
    (hsens : pyToLower k ∈ fl) (hfound : jlookup entries k = some v) :
    jlookup (maskEntries fl mc sc entries) k
      = some (.str (maskValue mc sc (pyStr v))) := by
  induction entries with
  | nil => simp [jlookup] at hfound
  | cons kv rest ih =>
    obtain ⟨k0, v0⟩ := kv
    by_cases hk : k0 = k
    · subst hk
      rw [jlookup, if_pos rfl] at hfound
      obtain rfl : v0 = v := by injection hfound
      rw [maskEntries, if_pos hsens, jlookup, if_pos rfl]
    · rw [jlookup, if_neg hk] at hfound
      rw [maskEntries]
      by_cases hs : pyToLower k0 ∈ fl
      · rw [if_pos hs, jlookup, if_neg hk]
        exact ih hfound
      · rw [if_neg hs, jlookup, if_neg hk]
        exact ih hfound

/-! ## Claim theorems -/

/-- C1: `format_endpoint` is claimed to normalize `"//api//peers//"` to
`"/api/peers"`; the code instead strips only the first leading slash before
the `api/` prefix check, so the input gains a second `api` segment and
keeps its trailing slash, producing `"/api/api/peers/"`.  The repository's
own test `test_format_endpoint_with_multiple_slashes` asserts the claimed
value, so this is a divergence of the code from its tests. -/
theorem C1_format_endpoint_duplicate_slash_bug :
    formatEndpoint "//api//peers//" = "/api/api/peers/"
    ∧ formatEndpoint "//api//peers//" ≠ "/api/peers"
    ∧ formatEndpoint "peers" = "/api/peers"
    ∧ formatEndpoint "/peers" = "/api/peers"
    ∧ formatEndpoint "api/peers" = "/api/peers" := by
  refine ⟨rfl, by decide, rfl, rfl, rfl⟩

/-- C2: classifying status 429 is claimed to produce a rate-limit error
whose `status_code` is 429, whose `response` is the payload and whose
`retry_after` is a hint from the response; the positional-argument shift in
`map_status_code_to_exception` instead stores 429 in `retry_after`, the
payload dict in `status_code`, and the empty dict in `response`.  The
repository's own test `test_map_429_to_rate_limit_error` asserts
`status_code == 429`, which this contradicts. -/
theorem C2_rate_limit_positional_argument_bug :
    (∀ (msg : String) (r : JDict),
      (mapStatusCodeToException 429 msg (some r)).kind = .rateLimit
      ∧ (mapStatusCodeToException 429 msg (some r)).retryAfter = some (.num 429)
      ∧ (mapStatusCodeToException 429 msg (some r)).statusCode = some (.dict r)
      ∧ (mapStatusCodeToException 429 msg (some r)).response = [])
    ∧ (mapStatusCodeToException 429 "Too many requests" none).retryAfter
        = some (.num 429)
    ∧ (mapStatusCodeToException 429 "Too many requests" none).statusCode = none := by
  exact ⟨fun msg r => ⟨rfl, rfl, rfl, rfl⟩, rfl, rfl⟩

/-- C5: classification maps 400/422 to ValidationError, 401 to
AuthenticationError, 403 to AuthorizationError, 404 to
ResourceNotFoundError, 409 to ConflictError, 429 to RateLimitError,
500-599 to ServerError and anything else to the generic base error
carrying the status; status 404 with body `message: resource not found`
yields a ResourceNotFoundError with that message and status 404, and
status 418 yields the generic base error with status 418. -/
theorem C5_error_classification :
    (∀ (status : Int) (msg : String) (resp : Option JDict),
      ((status = 400 ∨ status = 422) →
        (mapStatusCodeToException status msg resp).kind = .validation)
      ∧ (status = 401 → (mapStatusCodeToException status msg resp).kind = .authentication)
      ∧ (status = 403 → (mapStatusCodeToException status msg resp).kind = .authorization)
      ∧ (status = 404 → (mapStatusCodeToException status msg resp).kind = .notFound)
      ∧ (status = 409 → (mapStatusCodeToException status msg resp).kind = .conflict)
      ∧ (status = 429 → (mapStatusCodeToException status msg resp).kind = .rateLimit)
      ∧ (500 ≤ status → status < 600 →
          (mapStatusCodeToException status msg resp).kind = .server)
      ∧ (status ≠ 400 → status ≠ 401 → status ≠ 403 → status ≠ 404 →
          status ≠ 409 → status ≠ 422 → status ≠ 429 →
          ¬(500 ≤ status ∧ status < 600) →
          (mapStatusCodeToException status msg resp).kind = .base
          ∧ (mapStatusCodeToException status msg resp).statusCode = some (.num status)))
    ∧ ((processErrorResponse 404 [("message", .str "resource not found")] "Not Found").kind
        = .notFound
      ∧ (processErrorResponse 404 [("message", .str "resource not found")] "Not Found").message
        = "resource not found"
      ∧ (processErrorResponse 404 [("message", .str "resource not found")] "Not Found").statusCode
        = some (.num 404))
    ∧ (∀ (body : JDict) (reason : String),
        (processErrorResponse 418 body reason).kind = .base
        ∧ (processErrorResponse 418 body reason).statusCode = some (.num 418)) := by
  refine ⟨?_, ⟨rfl, rfl, rfl⟩, ?_⟩
  · intro status msg resp
    refine ⟨?_, ?_, ?_, ?_, ?_, ?_, ?_, ?_⟩
    · rintro (rfl | rfl) <;> rfl
    · rintro rfl; rfl
    · rintro rfl; rfl
    · rintro rfl; rfl
    · rintro rfl; rfl
    · rintro rfl; rfl
    · intro h1 h2
      have h400 : ¬(status = 400) := by omega
      have h401 : ¬(status = 401) := by omega
      have h403 : ¬(status = 403) := by omega
      have h404 : ¬(status = 404) := by omega
      have h409 : ¬(status = 409) := by omega
      have h422 : ¬(status = 422) := by omega
      have h429 : ¬(status = 429) := by omega
      rw [mapStatusCodeToException, if_neg h400, if_neg h401, if_neg h403,
        if_neg h404, if_neg h409, if_neg h422, if_neg h429, if_pos ⟨h1, h2⟩]
      rfl
    · intro h400 h401 h403 h404 h409 h422 h429 h5xx
      rw [mapStatusCodeToException, if_neg h400, if_neg h401, if_neg h403,
        if_neg h404, if_neg h409, if_neg h422, if_neg h429, if_neg h5xx]
      exact ⟨rfl, rfl⟩
  · intro body reason
    rw [processErrorResponse]
    rw [mapStatusCodeToException,
      if_neg (by decide : ¬((418 : Int) = 400)),
      if_neg (by decide : ¬((418 : Int) = 401)),
      if_neg (by decide : ¬((418 : Int) = 403)),
      if_neg (by decide : ¬((418 : Int) = 404)),
      if_neg (by decide : ¬((418 : Int) = 409)),
      if_neg (by decide : ¬((418 : Int) = 422)),
      if_neg (by decide : ¬((418 : Int) = 429)),
      if_neg (by decide : ¬((500 : Int) ≤ 418 ∧ (418 : Int) < 600))]
    exact ⟨rfl, rfl⟩

/-- C5 witness: the theorem applied to status 404 with a concrete message
and body. -/
theorem C5_error_classification_witness :
    (mapStatusCodeToException 404 "resource not found"
        (some [("message", .str "resource not found")])).kind = .notFound :=
  ((C5_error_classification.1 404 "resource not found"
      (some [("message", .str "resource not found")])).2.2.2.1) rfl

/-- C3: with a request that fails transiently on every attempt, the retry
wrapper performs exactly `max_retries + 1` attempts, sleeps
`retry_delay * backoff_factor ^ attempt` after each failed attempt except
the last, and finally raises the outcome of the last attempt; in
particular `max_retries = 2`, `retry_delay = 1.0`, `backoff_factor = 2.0`
gives 3 attempts with sleeps of 1.0 and 2.0 seconds. -/
theorem C3_retry_transient_exhaustion {α : Type} (mr : Nat) (rd bf : ℚ)
    (f : Nat → Except NBError α)
    (h : ∀ n, ∃ e, f n = .error e ∧ isTransientErr e = true) :
    makeRequestWithRetry mr rd bf f
      = (mr + 1, (List.range mr).map (fun i => rd * bf ^ i), f mr)
    ∧ makeRequestWithRetry 2 1 2 f = (3, [1, 2], f 2) := by
  constructor
  · have hgen := retryFromAux_all_transient rd bf f h mr 0 mr (by omega)
    rw [makeRequestWithRetry, hgen]
    simp
  · have hgen := retryFromAux_all_transient 1 2 f h 2 0 2 (by omega)
    rw [makeRequestWithRetry, hgen]
    refine congrArg (fun l => ((3 : Nat), l, f 2)) ?_
    norm_num [List.range_succ]

/-- C3 witness: a request that always raises a network error with
`max_retries = 2`, `retry_delay = 1.0`, `backoff_factor = 2.0`. -/
theorem C3_retry_transient_exhaustion_witness :
    makeRequestWithRetry 2 1 2
        (fun _ => (Except.error
          { kind := .network, message := "Network error: connection refused"
            statusCode := none, response := [], retryAfter := none }
          : Except NBError JDict))
      = (3, [1, 2], Except.error
          { kind := .network, message := "Network error: connection refused"
            statusCode := none, response := [], retryAfter := none }) :=
  (C3_retry_transient_exhaustion 2 1 2 _
    (fun _ => ⟨{ kind := .network, message := "Network error: connection refused"
                 statusCode := none, response := [], retryAfter := none }, rfl, rfl⟩)).2

/-- C4: if the first `k` attempts fail transiently and attempt `k` (still
within the retry budget) raises a classified API error (any NetBird
exception that is neither NetworkError nor TimeoutError), the wrapper
stops at attempt `k + 1` and propagates that error immediately: only
transient errors are ever retried. -/
theorem C4_api_errors_never_retried {α : Type} (mr : Nat) (rd bf : ℚ)
    (f : Nat → Except NBError α) (k : Nat) (e : NBError)
    (hk : k ≤ mr)
    (htr : ∀ i, i < k → ∃ t, f i = .error t ∧ isTransientErr t = true)
    (hfe : f k = .error e)
    (hnt : isTransientErr e = false) :
    makeRequestWithRetry mr rd bf f
      = (k + 1, (List.range k).map (fun i => rd * bf ^ i), .error e) := by
  have hgen := retryFromAux_nontransient rd bf f e hnt k 0 mr (by omega)
    (fun i hi1 hi2 => htr i (by omega)) (by simpa using hfe)
  rw [makeRequestWithRetry, hgen]
  simp

/-- C4 witness: a 404 classified on the first attempt propagates with no
retry even though the budget allows three. -/
theorem C4_api_errors_never_retried_witness :
    makeRequestWithRetry 3 1 2
        (fun _ => (Except.error
          (processErrorResponse 404 [("message", JValue.str "resource not found")] "Not Found")
          : Except NBError JDict))
      = (1, [], Except.error
          (processErrorResponse 404 [("message", JValue.str "resource not found")] "Not Found")) :=
  C4_api_errors_never_retried 3 1 2 _ 0 _ (by omega)
    (fun i hi => absurd hi (Nat.not_lt_zero i)) rfl rfl

/-- C6: config resolution merges defaults, file, environment and explicit
overrides with precedence explicit > environment > file > defaults, where
a non-map field overrides only when its value differs from the dataclass
default and `extra_headers` is merged key-by-key; with
`NETBIRD_TIMEOUT=60` in the environment an explicit `timeout=120` resolves
to 120, and without the explicit override to 60. -/
theorem C6_config_precedence :
    (∀ (fileCfg : Option NetBirdConfig) (env : EnvVars) (o : Overrides),
      (loadConfigMerged fileCfg { env with timeout := some 60 }
          (some { o with timeout := some 120 })).timeout = 120)
    ∧ (∀ (fileCfg : Option NetBirdConfig) (env : EnvVars) (o : Overrides),
      (loadConfigMerged fileCfg { env with timeout := some 60 }
          (some { o with timeout := none })).timeout = 60
      ∧ (loadConfigMerged fileCfg { env with timeout := some 60 } none).timeout = 60)
    ∧ (∀ (fileCfg : Option NetBirdConfig) (env : EnvVars) (o : Overrides) (t : Int),
      o.timeout = some t → t ≠ 30 →
      (loadConfigMerged fileCfg env (some o)).timeout = t)
    ∧ (∀ (fileCfg : Option NetBirdConfig) (env : EnvVars) (o : Overrides),
      (configFromDict o).timeout = defaultConfig.timeout →
      (loadConfigMerged fileCfg env (some o)).timeout
        = (loadConfigMerged fileCfg env none).timeout)
    ∧ (∀ (fc : NetBirdConfig) (env : EnvVars) (o : Overrides) (k : String),
      List.lookup k (loadConfigMerged (some fc) env (some o)).extraHeaders
        = (List.lookup k (o.extraHeaders.getD [])).orElse
            (fun _ => List.lookup k fc.extraHeaders)) := by
  refine ⟨?_, ?_, ?_, ?_, ?_⟩
  · intro fileCfg env o
    cases fileCfg <;>
      norm_num [loadConfigMerged, mergeConfigs, mergeField, configFromEnv,
        configFromDict, defaultConfig]
  · intro fileCfg env o
    cases fileCfg <;>
      norm_num [loadConfigMerged, mergeConfigs, mergeField, configFromEnv,
        configFromDict, defaultConfig]
  · intro fileCfg env o t ht hne
    cases fileCfg <;>
      simp [loadConfigMerged, mergeConfigs, mergeField, configFromEnv,
        configFromDict, defaultConfig, ht, hne]
  · intro fileCfg env o hd
    have hd' : o.timeout.getD 30 = 30 := by
      simpa [configFromDict, defaultConfig] using hd
    cases fileCfg <;>
      simp [loadConfigMerged, mergeConfigs, mergeField, configFromEnv,
        configFromDict, defaultConfig, hd']
  · intro fc env o k
    simp [loadConfigMerged, mergeConfigs, configFromEnv, configFromDict,
      defaultConfig, lookup_dictUpdate]

/-- C6 witness: the two concrete timeout scenarios from the claim, with no
file config and no other environment variables or overrides set. -/
theorem C6_config_precedence_witness :
    (loadConfigMerged none { emptyEnv with timeout := some 60 }
        (some { noOverrides with timeout := some 120 })).timeout = 120
    ∧ (loadConfigMerged none { emptyEnv with timeout := some 60 } none).timeout = 60
    ∧ (loadConfigMerged none emptyEnv
        (some { noOverrides with timeout := some 120 })).timeout = 120 :=
  ⟨C6_config_precedence.1 none emptyEnv noOverrides,
   (C6_config_precedence.2.1 none emptyEnv noOverrides).2,
   C6_config_precedence.2.2.1 none emptyEnv
     { noOverrides with timeout := some 120 } 120 rfl (by decide)⟩

/-- C7 counterexample: the claim is false on the code in two concrete
places.  A name of raw length 101 whose stripped form has exactly 100
characters is rejected (the length check runs on the unstripped value,
before trimming), and `PolicyRule` accepts the empty name unchanged (the
class has no name validator). -/
theorem C7_name_validation_counterexample :
    (groupValidateName (" " ++ String.mk (List.replicate 100 'a'))).isOk = false
    ∧ policyRuleValidateName "" = .ok "" :=
  ⟨by decide, rfl⟩

/-- C7 amended: for `Group` and `Policy`, validation rejects names that are
empty after stripping and names whose raw (unstripped) length exceeds 100,
and otherwise stores the stripped name; `PolicyRule` performs no name
validation and accepts any string unchanged. -/
theorem C7_name_validation_amended (v : String) :
    (pyStrip v ≠ "" → v.length ≤ 100 →
      groupValidateName v = .ok (pyStrip v)
      ∧ policyValidateName v = .ok (pyStrip v))
    ∧ (pyStrip v = "" →
      (groupValidateName v).isOk = false ∧ (policyValidateName v).isOk = false)
    ∧ (100 < v.length →
      (groupValidateName v).isOk = false ∧ (policyValidateName v).isOk = false)
    ∧ policyRuleValidateName v = .ok v := by
  refine ⟨?_, ?_, ?_, rfl⟩
  · intro h1 h2
    have hv : ¬(v = "") := by
      intro h
      apply h1
      rw [h]
      rfl
    refine ⟨?_, ?_⟩ <;>
      simp [groupValidateName, policyValidateName, hv, h1, Nat.not_lt.mpr h2]
  · intro h
    refine ⟨?_, ?_⟩ <;>
      simp [groupValidateName, policyValidateName, h, Except.isOk, Except.toBool]
  · intro h
    cases hb : (decide (v = "") || decide (pyStrip v = "")) <;>
      refine ⟨?_, ?_⟩ <;>
        simp [groupValidateName, policyValidateName, hb, h, Except.isOk, Except.toBool]

/-- C7 witness: the amended theorem at the claim's concrete inputs: a
padded name is stored stripped, the empty name and a 101-character name
fail, a 100-character name succeeds. -/
theorem C7_name_validation_amended_witness :
    groupValidateName "  My Group  " = .ok "My Group"
    ∧ (groupValidateName "").isOk = false
    ∧ (groupValidateName (String.mk (List.replicate 101 'a'))).isOk = false
    ∧ groupValidateName (String.mk (List.replicate 100 'a'))
        = .ok (String.mk (List.replicate 100 'a')) := by
  refine ⟨?_, ?_, ?_, ?_⟩
  · exact ((C7_name_validation_amended "  My Group  ").1 (by decide) (by decide)).1
  · exact ((C7_name_validation_amended "").2.1 (by decide)).1
  · exact ((C7_name_validation_amended
      (String.mk (List.replicate 101 'a'))).2.2.1 (by decide)).1
  · exact ((C7_name_validation_amended
      (String.mk (List.replicate 100 'a'))).1 (by decide) (by decide)).1

/-- C8 counterexample: a group whose `peers` field is a list of bare id
strings fails validation, because pydantic only accepts a dict (or model
instance) for `PeerRef` and no before-validator converts strings. -/
theorem C8_bare_id_strings_rejected :
    (validateGroup [("id", JValue.str "g1"), ("name", JValue.str "G"),
        ("peers", JValue.list [JValue.str "id1", JValue.str "id2"])]).isOk
      = false := by
  decide

/-- C8 amended: a group whose `peers` field is a list of reference objects
validates to two `PeerRef`s with `has_peer` true for both ids, while the
same group with a bare-id-string peer list is rejected by validation. -/
theorem C8_reference_objects_normalize :
    validateGroup [("id", JValue.str "g1"), ("name", JValue.str "G"),
        ("peers", JValue.list
          [JValue.dict [("id", JValue.str "id1"), ("name", JValue.str "a")],
           JValue.dict [("id", JValue.str "id2"), ("name", JValue.str "b")]])]
      = Except.ok
          { id := "g1", name := "G", description := none, peersCount := 0
            peers := some [{ id := "id1", name := some "a", ip := none },
                           { id := "id2", name := some "b", ip := none }]
            resourcesCount := 0, groupType := none, issued := none }
    ∧ (∀ g, validateGroup [("id", JValue.str "g1"), ("name", JValue.str "G"),
        ("peers", JValue.list
          [JValue.dict [("id", JValue.str "id1"), ("name", JValue.str "a")],
           JValue.dict [("id", JValue.str "id2"), ("name", JValue.str "b")]])]
          = Except.ok g →
        (g.peers.getD []).length = 2
        ∧ hasPeer g "id1" = true ∧ hasPeer g "id2" = true)
    ∧ (validateGroup [("id", JValue.str "g1"), ("name", JValue.str "G"),
        ("peers", JValue.list [JValue.str "id1", JValue.str "id2"])]).isOk
        = false := by
  have h1 : validateGroup [("id", JValue.str "g1"), ("name", JValue.str "G"),
      ("peers", JValue.list
        [JValue.dict [("id", JValue.str "id1"), ("name", JValue.str "a")],
         JValue.dict [("id", JValue.str "id2"), ("name", JValue.str "b")]])]
      = Except.ok
        { id := "g1", name := "G", description := none, peersCount := 0
          peers := some [{ id := "id1", name := some "a", ip := none },
                         { id := "id2", name := some "b", ip := none }]
          resourcesCount := 0, groupType := none, issued := none } := by rfl
  refine ⟨h1, ?_, by decide⟩
  intro g hg
  rw [h1] at hg
  injection hg with h
  subst h
  exact ⟨rfl, rfl, rfl⟩

/-- C8 witness: the amended theorem applied to the validated group. -/
theorem C8_reference_objects_normalize_witness :
    (({ id := "g1", name := "G", description := none, peersCount := 0
        peers := some [{ id := "id1", name := some "a", ip := none },
                       { id := "id2", name := some "b", ip := none }]
        resourcesCount := 0, groupType := none, issued := none }
      : Group).peers.getD []).length = 2
    ∧ hasPeer
        { id := "g1", name := "G", description := none, peersCount := 0
          peers := some [{ id := "id1", name := some "a", ip := none },
                         { id := "id2", name := some "b", ip := none }]
          resourcesCount := 0, groupType := none, issued := none } "id1" = true
    ∧ hasPeer
        { id := "g1", name := "G", description := none, peersCount := 0
          peers := some [{ id := "id1", name := some "a", ip := none },
                         { id := "id2", name := some "b", ip := none }]
          resourcesCount := 0, groupType := none, issued := none } "id2" = true :=
  C8_reference_objects_normalize.2.1 _ (by rfl)

/-- C9: for a group whose peer list is present and consistent with
`peers_count`, both `add_peer` and `remove_peer` leave `peers_count` equal
to the length of the resulting peer list, and `remove_peer` returns true
exactly when a peer with the given id was present. -/
theorem C9_peers_count_invariant (g : Group) (l : List PeerRef)
    (p : PeerRef) (pid : String)
    (hpeers : g.peers = some l) (hcount : g.peersCount = (l.length : Int)) :
    (∃ l1, (addPeer g p).peers = some l1
      ∧ (addPeer g p).peersCount = (l1.length : Int))
    ∧ (∃ l2, (removePeer g pid).2.peers = some l2
      ∧ (removePeer g pid).2.peersCount = (l2.length : Int))
    ∧ ((removePeer g pid).1 = true ↔ ∃ q ∈ l, q.id = pid) := by
  refine ⟨?_, ?_, ?_⟩
  · by_cases hmem : ∃ a ∈ l, a.id = p.id
    · exact ⟨l, by simp [addPeer, hasPeer, peerIds, hpeers, hmem],
        by simp [addPeer, hasPeer, peerIds, hpeers, hmem, hcount]⟩
    · exact ⟨l ++ [p], by simp [addPeer, hasPeer, peerIds, hpeers, hmem],
        by simp [addPeer, hasPeer, peerIds, hpeers, hmem]⟩
  · exact ⟨l.filter (fun q => q.id != pid), by simp [removePeer, hpeers],
      by simp [removePeer, hpeers]⟩
  · simp only [removePeer, hpeers, decide_eq_true_eq]
    rw [length_filter_lt_iff]
    constructor
    · rintro ⟨x, hx, hpx⟩
      refine ⟨x, hx, ?_⟩
      simpa using hpx
    · rintro ⟨q, hq, hid⟩
      exact ⟨q, hq, by simp [hid]⟩

/-- C9 witness: removing a present peer from a two-peer group, via the
theorem at a concrete group. -/
theorem C9_peers_count_invariant_witness :
    (removePeer
        { id := "g1", name := "G", description := none, peersCount := 2
          peers := some [{ id := "p1", name := some "peer1", ip := none },
                         { id := "p2", name := some "peer2", ip := none }]
          resourcesCount := 0, groupType := none, issued := none } "p1").1 = true
      ↔ ∃ q ∈ ([{ id := "p1", name := some "peer1", ip := none },
                { id := "p2", name := some "peer2", ip := none }] : List PeerRef),
          q.id = "p1" :=
  (C9_peers_count_invariant _ _ { id := "p3", name := none, ip := none } "p1"
    rfl rfl).2.2

/-- C10: whenever a dict holds a sensitive key (one of the default
sensitive field names, case-insensitively) whose string value is no longer
than `show_chars`, masking replaces the whole value with `mask_char`
repeated `len(value)` times; a suffix is revealed only when the value is
strictly longer than `show_chars`, as in the claim's example where
`secret123456` with `show_chars = 4` masks to `********3456`. -/
theorem C10_short_sensitive_values_fully_masked (entries : JDict)
    (k s mc : String) (sc : Nat)
    (hsens : pyToLower k ∈ defaultSensitiveFields.map pyToLower)
    (hfound : jlookup entries k = some (.str s)) :
    (s.length ≤ sc →
      ∃ d, maskSensitiveData (.dict entries) none mc sc = .dict d
        ∧ jlookup d k = some (.str (strRepeat mc s.length)))
    ∧ (sc < s.length →
      ∃ d, maskSensitiveData (.dict entries) none mc sc = .dict d
        ∧ jlookup d k = some (.str (strRepeat mc (s.length - sc) ++ pySuffix s sc)))
    ∧ maskSensitiveData (.dict [("api_key", .str "secret123456")]) none "*" 4
        = .dict [("api_key", .str "********3456")] := by
  have hmask := jlookup_maskEntries (defaultSensitiveFields.map pyToLower)
    mc sc entries k (.str s) hsens hfound
  refine ⟨?_, ?_, by rfl⟩
  · intro hle
    refine ⟨maskEntries (defaultSensitiveFields.map pyToLower) mc sc entries,
      rfl, ?_⟩
    rw [hmask]
    simp [maskValue, pyStr, hle]
  · intro hgt
    refine ⟨maskEntries (defaultSensitiveFields.map pyToLower) mc sc entries,
      rfl, ?_⟩
    rw [hmask]
    simp [maskValue, pyStr, Nat.not_le.mpr hgt]

/-- C10 witness: the theorem at a three-character token with
`show_chars = 4`: the output is fully masked. -/
theorem C10_short_sensitive_values_fully_masked_witness :
    ∃ d, maskSensitiveData (.dict [("token", JValue.str "abc")]) none "*" 4
        = .dict d
      ∧ jlookup d "token" = some (.str (strRepeat "*" 3)) :=
  (C10_short_sensitive_values_fully_masked [("token", JValue.str "abc")]
    "token" "abc" "*" 4 (by decide) rfl).1 (by decide)
